import Mathlib

/-!
Verification of the discord-attendance repository.

This file gives a shallow embedding of the parts of the program that the
properties below are about:

* `utils/code_generator.py` — the random attendance-code generator.
  The cryptographically secure random source (`secrets.choice`) is modelled
  as an oracle `picks : Nat → Nat → Nat` giving, for each retry attempt and
  each character position, the random draw; the unbounded `while True` retry
  loop is modelled with explicit fuel.
* `bot/cogs/attendance.py` — the command handlers (`open_attendance`,
  `here`) and the body of one iteration of the code-rotation background
  loop.
* `storage/session_manager.py` — this module is imported by the cog but is
  not part of the source tree given here; its operations are modelled from
  the specification (each such definition is marked in its doc comment).
* `storage/database.py` — the SQLite layer.  A database is a list of rows;
  `INSERT OR REPLACE` under the `UNIQUE(user_id, session_id)` constraint is
  modelled as delete-conflicting-then-append; SQL `ORDER BY` is modelled
  with a stable sort.  The `IndexError` reachable in the timestamp-string
  branch of `save_attendance_records` is modelled with `Except`.
* `config.py` — configuration validation, with Python truthiness of
  optional strings and integers modelled explicitly.
-/

/-- The character set of `utils/code_generator.py`: excludes the ambiguous
characters I, O, 1, 0. -/
def CHAR_SET : List Char := "ABCDEFGHJKLMNPQRSTUVWXYZ23456789".toList

/-- One call of `secrets.choice(CHAR_SET)`: the random source supplies an
arbitrary natural number and choice selects the corresponding element. -/
def choiceChar (k : Nat) : Char := CHAR_SET.getD (k % CHAR_SET.length) 'A'

/-- One candidate code: `''.join(secrets.choice(CHAR_SET) for _ in range(length))`,
with `pick i` the random draw used for position `i`. -/
def buildCode (length : Nat) (pick : Nat → Nat) : String :=
  String.mk ((List.range length).map (fun i => choiceChar (pick i)))

/-- The `while True` retry loop of `generate_code`, with explicit fuel and the
index of the current attempt.  `previous_code = none` models Python `None`
(a fresh code is compared unequal to `None`, so the first attempt is
returned). -/
def generate_code_loop (length : Nat) (previous_code : Option String)
    (picks : Nat → Nat → Nat) : Nat → Nat → Option String
  | 0, _ => none
  | fuel + 1, attempt =>
    let code := buildCode length (picks attempt)
    if some code ≠ previous_code then some code
    else generate_code_loop length previous_code picks fuel (attempt + 1)

/-- `generate_code(length, previous_code)` of `utils/code_generator.py`. -/
def generate_code (length : Nat) (previous_code : Option String)
    (picks : Nat → Nat → Nat) (fuel : Nat) : Option String :=
  generate_code_loop length previous_code picks fuel 0

theorem choiceChar_mem (k : Nat) : choiceChar k ∈ CHAR_SET := by
  unfold choiceChar
  have hlen : CHAR_SET.length = 32 := by decide
  have hlt : k % CHAR_SET.length < CHAR_SET.length := by
    rw [hlen]; exact Nat.mod_lt _ (by norm_num)
  rw [List.getD_eq_getElem _ _ hlt]
  exact List.getElem_mem _

theorem buildCode_length (length : Nat) (pick : Nat → Nat) :
    (buildCode length pick).length = length := by
  unfold buildCode
  simp [String.length]

theorem buildCode_chars (length : Nat) (pick : Nat → Nat) :
    ∀ c ∈ (buildCode length pick).data, c ∈ CHAR_SET := by
  unfold buildCode
  intro c hc
  simp only [String.mk] at hc
  rcases List.mem_map.mp hc with ⟨i, _, rfl⟩
  exact choiceChar_mem _

theorem generate_code_loop_ne (length : Nat) (previous_code : Option String)
    (picks : Nat → Nat → Nat) :
    ∀ fuel attempt c, generate_code_loop length previous_code picks fuel attempt = some c →
      some c ≠ previous_code ∧ ∃ a, c = buildCode length (picks a) := by
  intro fuel
  induction fuel with
  | zero => intro attempt c h; simp [generate_code_loop] at h
  | succ n ih =>
    intro attempt c h
    unfold generate_code_loop at h
    by_cases hne : some (buildCode length (picks attempt)) ≠ previous_code
    · rw [if_pos hne] at h
      injection h with h
      subst h
      exact ⟨hne, attempt, rfl⟩
    · rw [if_neg hne] at h
      exact ih (attempt + 1) c h

theorem generate_code_ne (length : Nat) (previous_code : Option String)
    (picks : Nat → Nat → Nat) (fuel : Nat) (c : String)
    (h : generate_code length previous_code picks fuel = some c) :
    some c ≠ previous_code :=
  (generate_code_loop_ne length previous_code picks fuel 0 c h).1

theorem generate_code_loop_first (length : Nat) (previous_code : Option String)
    (picks : Nat → Nat → Nat) :
    ∀ (n fuel attempt : Nat), n < fuel →
      some (buildCode length (picks (attempt + n))) ≠ previous_code →
      (∀ m < n, some (buildCode length (picks (attempt + m))) = previous_code) →
      generate_code_loop length previous_code picks fuel attempt =
        some (buildCode length (picks (attempt + n))) := by
  intro n
  induction n with
  | zero =>
    intro fuel attempt hfuel hdiff _
    match fuel, hfuel with
    | f + 1, _ =>
      rw [Nat.add_zero] at hdiff
      unfold generate_code_loop
      rw [if_pos hdiff, Nat.add_zero]
  | succ k ih =>
    intro fuel attempt hfuel hdiff hbefore
    match fuel, hfuel with
    | f + 1, hfuel =>
      unfold generate_code_loop
      have h0 : some (buildCode length (picks (attempt + 0))) = previous_code :=
        hbefore 0 (Nat.succ_pos k)
      rw [Nat.add_zero] at h0
      rw [if_neg (not_not_intro h0)]
      have eshift : attempt + (k + 1) = (attempt + 1) + k := by omega
      rw [eshift] at hdiff ⊢
      refine ih f (attempt + 1) (Nat.lt_of_succ_lt_succ hfuel) hdiff ?_
      intro m hm
      have hb := hbefore (m + 1) (Nat.succ_lt_succ hm)
      have em : attempt + (m + 1) = (attempt + 1) + m := by omega
      rw [em] at hb
      exact hb

/-- Errors of `utils/errors.py`, together with the outcomes the command
handlers report without raising (wrong channel, channel lookup failure,
the generic exception handler). -/
inductive AttendanceError where
  | sessionAlreadyActive
  | noActiveSession
  | invalidCode
  | wrongChannel
  | channelNotFound
  | internalFault
deriving DecidableEq, Repr

/-- One accepted submission held by the in-memory ledger.
Modelled from the spec: `storage/session_manager.py` is imported by the cog
but is not among the given sources; per the spec a SubmissionEntry is the
participant identity, display label, accepted token and acceptance
timestamp. -/
structure LedgerEntry where
  user_id : Int
  username : String
  code : String
  timestamp : Nat
deriving DecidableEq, Repr

/-- In-memory session state.
Modelled from the spec: `storage/session_manager.py` (class
`AttendanceSession`) is not among the given sources; per the spec a Session
has a status (Active/Inactive), the current token, an identifier and a
ledger keyed by participant identity. -/
structure SessionState where
  is_active : Bool
  current_code : String
  session_id : String
  message_id : Option Nat
  channel_id : Option Nat
  ledger : List LedgerEntry
deriving DecidableEq, Repr

/-- Modelled from the spec: ledger `upsert` replaces the prior entry for the
same identity in place, otherwise appends (one entry per identity,
last-write-wins). -/
def ledger_upsert (l : List LedgerEntry) (e : LedgerEntry) : List LedgerEntry :=
  if l.any (fun x => x.user_id == e.user_id) then
    l.map (fun x => if x.user_id == e.user_id then e else x)
  else l ++ [e]

/-- Modelled from the spec: `start(initialToken, surfaceHandles)` fails with
`SessionAlreadyActive` while Active without mutating state; on success sets
the token, a fresh identifier and an empty ledger. -/
def start_session (st : SessionState) (code : String) (new_session_id : String)
    (message_id channel_id : Nat) : Except AttendanceError SessionState :=
  if st.is_active then .error .sessionAlreadyActive
  else .ok ⟨true, code, new_session_id, some message_id, some channel_id, []⟩

/-- Modelled from the spec: `submit(identity, label, token)` fails with
`NoActiveSession` while Inactive, fails with `InvalidCode` when the token
does not equal the current token, otherwise upserts into the ledger with
the acceptance timestamp. -/
def submit_attendance (st : SessionState) (user_id : Int) (username : String)
    (code : String) (now : Nat) : Except AttendanceError SessionState :=
  if st.is_active = false then .error .noActiveSession
  else if code = st.current_code then
    .ok { st with ledger := ledger_upsert st.ledger ⟨user_id, username, code, now⟩ }
  else .error .invalidCode

/-- Modelled from the spec: `update_token(newToken)` stores the new token
while Active and is a silent no-op while Inactive. -/
def update_code (st : SessionState) (new_code : String) : SessionState :=
  if st.is_active then { st with current_code := new_code } else st

/-- The state-mutating body of one iteration of
`AttendanceCog._rotate_code_loop`: if the session is still active, read the
current code, call `generate_code` with it as `previous_code`, and publish
the result through `update_code`.  `none` models an iteration that does not
publish (session no longer active, or the generator fuel ran out). -/
def rotate_code_step (st : SessionState) (code_length : Nat)
    (picks : Nat → Nat → Nat) (fuel : Nat) : Option SessionState :=
  if st.is_active = false then none
  else
    match generate_code code_length (some st.current_code) picks fuel with
    | none => none
    | some new_code => some (update_code st new_code)

/-- Python `str.upper()` (over the ASCII range used by the program). -/
def pyUpper (s : String) : String := String.mk (s.data.map Char.toUpper)

/-- Removing leading and trailing whitespace from a list of characters. -/
def stripList (l : List Char) : List Char :=
  ((l.dropWhile Char.isWhitespace).reverse.dropWhile Char.isWhitespace).reverse

/-- Python `str.strip()` with no argument: trim whitespace on both ends. -/
def pyStrip (s : String) : String := String.mk (stripList s.data)

/-- The `/here` command handler `AttendanceCog.here`: channel check, then
`code_upper = code.upper().strip()` is forwarded to `submit_attendance`;
errors are caught and reported, leaving the session state unchanged. -/
def here (attendance_channel_id channel_id : Int) (st : SessionState)
    (user_id : Int) (username : String) (code : String) (now : Nat) :
    SessionState × Option AttendanceError :=
  if channel_id ≠ attendance_channel_id then (st, some .wrongChannel)
  else
    match submit_attendance st user_id username (pyStrip (pyUpper code)) now with
    | .ok st' => (st', none)
    | .error e => (st, some e)

/-- The `/open_attendance` command handler `AttendanceCog.open_attendance`:
channel check, initial code generation, channel lookups (their outcome is
the `admin_found` and `attendance_found` parameters), then
`start_session`; a raised `SessionAlreadyActiveError` is caught and
reported, leaving the session state unchanged.  The Discord message posts
are pure I/O and carry no session state. -/
def open_attendance (admin_channel_id channel_id : Int)
    (admin_found attendance_found : Bool) (st : SessionState)
    (code_length fuel : Nat) (picks : Nat → Nat → Nat)
    (new_session_id : String) (message_id channel_ref : Nat) :
    SessionState × Option AttendanceError :=
  if channel_id ≠ admin_channel_id then (st, some .wrongChannel)
  else
    match generate_code code_length none picks fuel with
    | none => (st, some .internalFault)
    | some initial_code =>
      if admin_found = false then (st, some .channelNotFound)
      else if attendance_found = false then (st, some .channelNotFound)
      else
        match start_session st initial_code new_session_id message_id channel_ref with
        | .ok st' => (st', none)
        | .error e => (st, some e)

theorem charSet_toUpper_fixed : ∀ c ∈ CHAR_SET, c.toUpper = c := by decide

theorem charSet_not_ws : ∀ c ∈ CHAR_SET, c.isWhitespace = false := by decide

theorem dropWhile_eq_self_of_none {p : Char → Bool} {l : List Char}
    (h : ∀ c ∈ l, p c = false) : l.dropWhile p = l := by
  cases l with
  | nil => rfl
  | cons a t => simp [List.dropWhile_cons, h a (List.mem_cons_self a t)]

theorem stripList_eq_self {l : List Char}
    (h : ∀ c ∈ l, Char.isWhitespace c = false) : stripList l = l := by
  unfold stripList
  rw [dropWhile_eq_self_of_none h]
  rw [dropWhile_eq_self_of_none (fun c hc => h c (List.mem_reverse.mp hc))]
  exact List.reverse_reverse l

theorem map_toUpper_fixed {l : List Char} (h : ∀ c ∈ l, c ∈ CHAR_SET) :
    l.map Char.toUpper = l := by
  induction l with
  | nil => rfl
  | cons a t ih =>
    simp only [List.map_cons]
    rw [charSet_toUpper_fixed a (h a (List.mem_cons_self a t)),
      ih (fun c hc => h c (List.mem_cons_of_mem a hc))]

/-- A string drawn entirely from the generator alphabet (such as every
current code) is a fixed point of the normalization `upper` then `strip`. -/
theorem normalize_fixed (s : String) (h : ∀ c ∈ s.data, c ∈ CHAR_SET) :
    pyStrip (pyUpper s) = s := by
  obtain ⟨l⟩ := s
  simp only [String.data] at h
  unfold pyUpper pyStrip
  simp only [String.data]
  rw [map_toUpper_fixed h, stripList_eq_self (fun c hc => charSet_not_ws c (h c hc))]

theorem generate_code_none_prev (length : Nat) (picks : Nat → Nat → Nat) (f : Nat) :
    generate_code length none picks (f + 1) = some (buildCode length (picks 0)) := by
  unfold generate_code generate_code_loop
  rw [if_pos (by simp)]

/-- Claim C5: every code returned by `generate_code` for a requested length
of at least 1 has exactly that many characters, each drawn from the fixed
32-symbol alphabet `CHAR_SET`, which has at least 30 symbols and contains
none of the ambiguous characters 0, 1, O, I. -/
theorem generate_code_length_alphabet (length : Nat) (previous_code : Option String)
    (picks : Nat → Nat → Nat) (fuel : Nat) (c : String)
    (hlen : 1 ≤ length)
    (h : generate_code length previous_code picks fuel = some c) :
    c.length = length ∧ (∀ ch ∈ c.data, ch ∈ CHAR_SET) ∧
      30 ≤ CHAR_SET.length ∧
      '0' ∉ CHAR_SET ∧ '1' ∉ CHAR_SET ∧ 'O' ∉ CHAR_SET ∧ 'I' ∉ CHAR_SET := by
  obtain ⟨-, a, rfl⟩ := generate_code_loop_ne length previous_code picks fuel 0 c h
  exact ⟨buildCode_length _ _, buildCode_chars _ _, by decide, by decide, by decide,
    by decide, by decide⟩

theorem generate_code_length_alphabet_witness :
    ("AAAA" : String).length = 4 ∧ (∀ ch ∈ ("AAAA" : String).data, ch ∈ CHAR_SET) ∧
      30 ≤ CHAR_SET.length ∧
      '0' ∉ CHAR_SET ∧ '1' ∉ CHAR_SET ∧ 'O' ∉ CHAR_SET ∧ 'I' ∉ CHAR_SET :=
  generate_code_length_alphabet 4 none (fun _ _ => 0) 1 "AAAA" (by decide) (by decide)

/-- Claim C2: `generate_code` called with a previous code never returns that
previous code, and one iteration of the rotation loop, which passes the
current code as `previous_code` and publishes the generator result through
`update_code`, never publishes a code equal to the one it replaces. -/
theorem rotation_no_repeat :
    (∀ (length : Nat) (p : String) (picks : Nat → Nat → Nat) (fuel : Nat) (c : String),
      generate_code length (some p) picks fuel = some c → c ≠ p) ∧
    (∀ (st : SessionState) (code_length fuel : Nat) (picks : Nat → Nat → Nat)
      (st' : SessionState),
      rotate_code_step st code_length picks fuel = some st' →
        st'.current_code ≠ st.current_code) := by
  have hgen : ∀ (length : Nat) (p : String) (picks : Nat → Nat → Nat) (fuel : Nat)
      (c : String), generate_code length (some p) picks fuel = some c → c ≠ p := by
    intro length p picks fuel c h
    have := generate_code_ne length (some p) picks fuel c h
    intro hc
    exact this (by rw [hc])
  refine ⟨hgen, ?_⟩
  intro st code_length fuel picks st' h
  unfold rotate_code_step at h
  by_cases hact : st.is_active = false
  · rw [if_pos hact] at h
    exact absurd h (by simp)
  · rw [if_neg hact] at h
    rcases hg : generate_code code_length (some st.current_code) picks fuel with - | new_code
    · rw [hg] at h
      exact absurd h (by simp)
    · rw [hg] at h
      injection h with h
      subst h
      unfold update_code
      rw [if_pos (by revert hact; cases st.is_active <;> simp)]
      simpa using hgen code_length st.current_code picks fuel new_code hg

theorem rotation_no_repeat_witness :
    (SessionState.mk true "ABCD" "s" none none []).current_code ≠
      (SessionState.mk true "AAAA" "s" none none []).current_code := by
  have h := rotation_no_repeat.2 ⟨true, "AAAA", "s", none, none, []⟩ 4 1
    (fun _ i => i) ⟨true, "ABCD", "s", none, none, []⟩ (by decide)
  simpa using h

/-- Claim C6: the retry loop of `generate_code` terminates as soon as the
random source yields a candidate differing from the previous code: if
attempt `n` is the first differing candidate (all earlier candidates equal
the previous code) and the fuel exceeds `n`, the loop returns exactly that
first differing candidate. -/
theorem generate_code_terminates_first_diff (length : Nat)
    (previous_code : Option String) (picks : Nat → Nat → Nat) (n fuel : Nat)
    (hfuel : n < fuel)
    (hdiff : some (buildCode length (picks n)) ≠ previous_code)
    (hbefore : ∀ m < n, some (buildCode length (picks m)) = previous_code) :
    generate_code length previous_code picks fuel = some (buildCode length (picks n)) := by
  have := generate_code_loop_first length previous_code picks n fuel 0 hfuel
    (by simpa using hdiff) (fun m hm => by simpa using hbefore m hm)
  simpa [generate_code] using this

theorem generate_code_terminates_first_diff_witness :
    generate_code 4 (some "AAAA") (fun _ i => i) 3 =
      some (buildCode 4 ((fun _ i : Nat => i) 0)) :=
  generate_code_terminates_first_diff 4 (some "AAAA") (fun _ i => i) 0 3
    (by decide) (by decide) (fun m hm => absurd hm (Nat.not_lt_zero m))

/-- Claim C3: the `/here` handler normalizes the submitted code by
uppercasing and trimming before forwarding it to `submit_attendance`; any
submission equal to the current code up to letter case and surrounding
whitespace is accepted (the current code, drawn from the generator
alphabet, is a fixed point of the normalization), and any submission whose
normalized form differs from the current code fails with `InvalidCode`
leaving the state unchanged. -/
theorem here_normalizes (attendance_channel_id : Int) (st : SessionState)
    (user_id : Int) (username : String) (code : String) (now : Nat)
    (hactive : st.is_active = true)
    (hcur : ∀ c ∈ st.current_code.data, c ∈ CHAR_SET) :
    (pyStrip (pyUpper code) = pyStrip (pyUpper st.current_code) →
      here attendance_channel_id attendance_channel_id st user_id username code now =
        ({ st with
            ledger := ledger_upsert st.ledger ⟨user_id, username, st.current_code, now⟩ },
          none)) ∧
    (pyStrip (pyUpper code) ≠ st.current_code →
      here attendance_channel_id attendance_channel_id st user_id username code now =
        (st, some .invalidCode)) := by
  have hfix : pyStrip (pyUpper st.current_code) = st.current_code :=
    normalize_fixed st.current_code hcur
  constructor
  · intro hmatch
    rw [hfix] at hmatch
    have hsub : submit_attendance st user_id username (pyStrip (pyUpper code)) now =
        .ok { st with
          ledger := ledger_upsert st.ledger ⟨user_id, username, st.current_code, now⟩ } := by
      unfold submit_attendance
      rw [hactive, if_neg (by simp), if_pos hmatch, hmatch]
    unfold here
    rw [if_neg (by simp), hsub]
  · intro hmiss
    have hsub : submit_attendance st user_id username (pyStrip (pyUpper code)) now =
        .error .invalidCode := by
      unfold submit_attendance
      rw [hactive, if_neg (by simp), if_neg hmiss]
    unfold here
    rw [if_neg (by simp), hsub]

theorem here_normalizes_witness :
    here 5 5 ⟨true, "ABCD", "s1", none, none, []⟩ 1 "alice" " abcd " 7 =
      ({ SessionState.mk true "ABCD" "s1" none none [] with
          ledger := ledger_upsert [] ⟨1, "alice", "ABCD", 7⟩ }, none) :=
  (here_normalizes 5 ⟨true, "ABCD", "s1", none, none, []⟩ 1 "alice" " abcd " 7
    rfl (by decide)).1 (by decide)

/-- Claim C4: starting a session while one is active always fails with
`SessionAlreadyActive` and mutates no session state: the coordinator-level
`start_session` returns the error for every requested code and identifier,
and the `/open_attendance` handler (when it reaches the start call) reports
exactly that error with the pre-existing state, current code, session
identifier and ledger unchanged. -/
theorem open_attendance_already_active (admin_channel_id : Int)
    (st : SessionState) (code_length fuel : Nat) (picks : Nat → Nat → Nat)
    (new_session_id : String) (message_id channel_ref : Nat)
    (hactive : st.is_active = true) (hfuel : 1 ≤ fuel) :
    (∀ (code sid : String) (mid cid : Nat),
      start_session st code sid mid cid = .error .sessionAlreadyActive) ∧
    open_attendance admin_channel_id admin_channel_id true true st
        code_length fuel picks new_session_id message_id channel_ref =
      (st, some .sessionAlreadyActive) := by
  have hstart : ∀ (code sid : String) (mid cid : Nat),
      start_session st code sid mid cid = .error .sessionAlreadyActive := by
    intro code sid mid cid
    unfold start_session
    rw [if_pos hactive]
  refine ⟨hstart, ?_⟩
  unfold open_attendance
  rw [if_neg (by simp)]
  obtain ⟨f, rfl⟩ : ∃ f, fuel = f + 1 := ⟨fuel - 1, by omega⟩
  rw [generate_code_none_prev]
  simp only [Bool.true_eq_false, if_false, hstart]

theorem open_attendance_already_active_witness :
    open_attendance 9 9 true true
        ⟨true, "WXYZ", "s1", some 3, some 9, [⟨1, "alice", "WXYZ", 0⟩]⟩
        4 1 (fun _ _ => 0) "s2" 4 9 =
      (⟨true, "WXYZ", "s1", some 3, some 9, [⟨1, "alice", "WXYZ", 0⟩]⟩,
        some .sessionAlreadyActive) :=
  (open_attendance_already_active 9
    ⟨true, "WXYZ", "s1", some 3, some 9, [⟨1, "alice", "WXYZ", 0⟩]⟩
    4 1 (fun _ _ => 0) "s2" 4 9 rfl (by decide)).2

/-- A `timestamp` value handed to `save_attendance_records`: either a Python
`datetime` (the shape the session ledger produces) or an already formatted
string. -/
inductive PyTimestamp where
  | dt (year month day hour minute second : Nat)
  | str (s : String)
deriving DecidableEq, Repr

def pad2 (n : Nat) : String := if n < 10 then "0" ++ toString n else toString n

def pad4 (n : Nat) : String :=
  if n < 10 then "000" ++ toString n
  else if n < 100 then "00" ++ toString n
  else if n < 1000 then "0" ++ toString n
  else toString n

/-- `strftime('%Y-%m-%d')`. -/
def formatDate (year month day : Nat) : String :=
  pad4 year ++ "-" ++ pad2 month ++ "-" ++ pad2 day

/-- `strftime('%Y-%m-%d %H:%M:%S')`. -/
def formatDateTime (year month day hour minute second : Nat) : String :=
  formatDate year month day ++ " " ++ pad2 hour ++ ":" ++ pad2 minute ++ ":" ++ pad2 second

/-- The first whitespace-separated token of a character list, i.e. Python
`s.split()[0]`; `none` when `split()` is empty and the indexing raises. -/
def firstToken (l : List Char) : Option (List Char) :=
  match l.dropWhile Char.isWhitespace with
  | [] => none
  | c :: rest => some ((c :: rest).takeWhile (fun ch => !ch.isWhitespace))

/-- One row of the `attendance` table (`id` omitted: it is an autoincrement
surrogate and row order in the list model plays its role).  `status` is
nullable; rows inserted without the column get the SQL default. -/
structure AttendanceRow where
  user_id : Int
  username : String
  timestamp : String
  date_id : String
  session_id : String
  status : Option String
deriving DecidableEq, Repr

/-- One element of the `records` list passed to `save_attendance_records`
(keys `user_id`, `username`, `timestamp`). -/
structure SubmissionRecord where
  user_id : Int
  username : String
  timestamp : PyTimestamp
deriving DecidableEq, Repr

/-- Preparation of one tuple of `data_to_insert`: the `datetime` branch
formats with `strftime`, the string branch takes `timestamp.split()[0]` as
the date (raising `IndexError` on a whitespace-only string).  The inserted
row carries the SQL default status. -/
def recordToRow (session_id : String) (r : SubmissionRecord) : Except String AttendanceRow :=
  match r.timestamp with
  | .dt y mo d h mi s =>
    .ok ⟨r.user_id, r.username, formatDateTime y mo d h mi s, formatDate y mo d,
      session_id, some "present"⟩
  | .str ts =>
    match firstToken ts.data with
    | none => .error "IndexError: list index out of range"
    | some tok => .ok ⟨r.user_id, r.username, ts, String.mk tok, session_id, some "present"⟩

/-- The Boolean `(user_id, session_id)` key test on a row. -/
def keyMatch (u : Int) (sid : String) (r : AttendanceRow) : Bool :=
  decide (r.user_id = u ∧ r.session_id = sid)

/-- `INSERT OR REPLACE` under `UNIQUE(user_id, session_id)`: delete every
conflicting row, then insert the new row (with a fresh autoincrement id,
hence at the end). -/
def upsertRow (tbl : List AttendanceRow) (row : AttendanceRow) : List AttendanceRow :=
  tbl.filter (fun r => !(keyMatch row.user_id row.session_id r)) ++ [row]

/-- The `for record in records` loop preparing `data_to_insert`: tuples in
input order, aborting at the first record whose timestamp raises. -/
def prepareRows (session_id : String) : List SubmissionRecord → Except String (List AttendanceRow)
  | [] => .ok []
  | r :: rs =>
    match recordToRow session_id r with
    | .error e => .error e
    | .ok row =>
      match prepareRows session_id rs with
      | .error e => .error e
      | .ok rows => .ok (row :: rows)

/-- `AttendanceDatabase.save_attendance_records`: empty input returns 0
without touching the database; otherwise all tuples are prepared first
(any failure aborts before any insert), then inserted in order by
`executemany`, and the length of `data_to_insert` is returned. -/
def save_attendance_records (tbl : List AttendanceRow) (records : List SubmissionRecord)
    (session_id : String) : Except String (List AttendanceRow × Nat) :=
  match records with
  | [] => .ok (tbl, 0)
  | _ :: _ =>
    match prepareRows session_id records with
    | .error e => .error e
    | .ok rows => .ok (rows.foldl upsertRow tbl, rows.length)

/-- The rows of the table with the given `(user_id, session_id)` key. -/
def keyRows (tbl : List AttendanceRow) (u : Int) (sid : String) : List AttendanceRow :=
  tbl.filter (keyMatch u sid)

/-- The table holds at most one row per `(user_id, session_id)` key — the
invariant enforced by the `UNIQUE(user_id, session_id)` constraint of
`setup_database`. -/
def UniqueKeys (tbl : List AttendanceRow) : Prop :=
  ∀ u sid, (keyRows tbl u sid).length ≤ 1

/-- The last element of a list satisfying a predicate. -/
def lastMatch {α : Type} (p : α → Bool) : List α → Option α
  | [] => none
  | a :: l =>
    match lastMatch p l with
    | some b => some b
    | none => if p a then some a else none

theorem lastMatch_cons {α : Type} (p : α → Bool) (a : α) (l : List α) :
    lastMatch p (a :: l) =
      match lastMatch p l with
      | some b => some b
      | none => if p a then some a else none := rfl

theorem keyMatch_true {u : Int} {sid : String} {r : AttendanceRow} :
    keyMatch u sid r = true ↔ (r.user_id = u ∧ r.session_id = sid) := by
  simp [keyMatch]

theorem keyRows_upsert (tbl : List AttendanceRow) (row : AttendanceRow)
    (u : Int) (sid : String) :
    keyRows (upsertRow tbl row) u sid =
      if row.user_id = u ∧ row.session_id = sid then [row] else keyRows tbl u sid := by
  unfold keyRows upsertRow
  rw [List.filter_append, List.filter_filter]
  by_cases h : row.user_id = u ∧ row.session_id = sid
  · rw [if_pos h]
    have hrow : keyMatch u sid row = true := keyMatch_true.mpr h
    have hnil : tbl.filter
        (fun r => keyMatch u sid r && !(keyMatch row.user_id row.session_id r)) = [] := by
      rw [List.filter_eq_nil_iff]
      intro a _
      intro hcontra
      rw [Bool.and_eq_true] at hcontra
      obtain ⟨h1, h2⟩ := hcontra
      obtain ⟨e1, e2⟩ := keyMatch_true.mp h1
      have hcm : keyMatch row.user_id row.session_id a = true :=
        keyMatch_true.mpr ⟨e1.trans h.1.symm, e2.trans h.2.symm⟩
      rw [hcm] at h2
      exact Bool.noConfusion h2
    rw [hnil]
    simp [List.filter_cons, hrow]
  · rw [if_neg h]
    have hrow : keyMatch u sid row = false := by
      rw [Bool.eq_false_iff]
      intro hc
      exact h (keyMatch_true.mp hc)
    have hsingle : List.filter (keyMatch u sid) [row] = [] := by
      simp [List.filter_cons, hrow]
    rw [hsingle, List.append_nil]
    apply List.filter_congr
    intro a _
    by_cases ha : keyMatch u sid a = true
    · obtain ⟨e1, e2⟩ := keyMatch_true.mp ha
      have hcon : keyMatch row.user_id row.session_id a = false := by
        rw [Bool.eq_false_iff]
        intro hc
        obtain ⟨c1, c2⟩ := keyMatch_true.mp hc
        exact h ⟨c1.symm.trans e1, c2.symm.trans e2⟩
      rw [ha, hcon]
      rfl
    · rw [Bool.not_eq_true] at ha
      rw [ha]
      rfl

theorem keyRows_foldl_none (u : Int) (sid : String) :
    ∀ (rows tbl : List AttendanceRow),
      lastMatch (keyMatch u sid) rows = none →
      keyRows (rows.foldl upsertRow tbl) u sid = keyRows tbl u sid := by
  intro rows
  induction rows with
  | nil => intro tbl _; rfl
  | cons a t ih =>
    intro tbl h
    rw [lastMatch_cons] at h
    rcases hlm : lastMatch (keyMatch u sid) t with - | b
    · rw [hlm] at h
      have hk : keyMatch u sid a = false := by
        by_cases hk : keyMatch u sid a = true
        · rw [if_pos hk] at h
          exact absurd h (by simp)
        · rw [Bool.not_eq_true] at hk
          exact hk
      have hprop : ¬(a.user_id = u ∧ a.session_id = sid) := by
        intro hc
        rw [keyMatch_true.mpr hc] at hk
        exact Bool.noConfusion hk
      rw [List.foldl_cons, ih (upsertRow tbl a) hlm, keyRows_upsert, if_neg hprop]
    · rw [hlm] at h
      exact absurd h (by simp)

theorem keyRows_foldl_some (u : Int) (sid : String) :
    ∀ (rows tbl : List AttendanceRow) (r : AttendanceRow),
      lastMatch (keyMatch u sid) rows = some r →
      keyRows (rows.foldl upsertRow tbl) u sid = [r] := by
  intro rows
  induction rows with
  | nil => intro tbl r h; exact absurd h (by simp [lastMatch])
  | cons a t ih =>
    intro tbl r h
    rw [lastMatch_cons] at h
    rcases hlm : lastMatch (keyMatch u sid) t with - | b
    · rw [hlm] at h
      by_cases hk : keyMatch u sid a = true
      · rw [if_pos hk] at h
        injection h with h
        subst h
        rw [List.foldl_cons, keyRows_foldl_none u sid t (upsertRow tbl a) hlm,
          keyRows_upsert, if_pos (keyMatch_true.mp hk)]
      · rw [if_neg hk] at h
        exact absurd h (by simp)
    · rw [hlm] at h
      injection h with h
      subst h
      rw [List.foldl_cons]
      exact ih (upsertRow tbl a) _ hlm

theorem UniqueKeys_foldl (tbl rows : List AttendanceRow)
    (h : UniqueKeys tbl) : UniqueKeys (rows.foldl upsertRow tbl) := by
  intro u sid
  rcases hlm : lastMatch (keyMatch u sid) rows with - | r
  · rw [keyRows_foldl_none u sid rows tbl hlm]
    exact h u sid
  · rw [keyRows_foldl_some u sid rows tbl r hlm]
    simp

theorem prepareRows_forall₂ (session_id : String) :
    ∀ (records : List SubmissionRecord) (rows : List AttendanceRow),
      prepareRows session_id records = .ok rows →
      List.Forall₂ (fun rec row => recordToRow session_id rec = .ok row) records rows := by
  intro records
  induction records with
  | nil =>
    intro rows h
    unfold prepareRows at h
    injection h with h
    rw [← h]
    exact List.Forall₂.nil
  | cons r rs ih =>
    intro rows h
    unfold prepareRows at h
    rcases hr : recordToRow session_id r with e | row <;> rw [hr] at h
    · exact absurd h (by simp)
    · rcases hrs : prepareRows session_id rs with e | rows' <;> rw [hrs] at h
      · exact absurd h (by simp)
      · injection h with h
        rw [← h]
        exact List.Forall₂.cons hr (ih rows' hrs)

theorem lastMatch_forall₂ {α β : Type} {R : α → β → Prop} {p : α → Bool} {q : β → Bool}
    (hpq : ∀ a b, R a b → p a = q b) :
    ∀ {l : List α} {l' : List β}, List.Forall₂ R l l' →
      (lastMatch p l = none ∧ lastMatch q l' = none) ∨
        (∃ a b, R a b ∧ lastMatch p l = some a ∧ lastMatch q l' = some b) := by
  intro l l' h
  induction h with
  | nil => exact Or.inl ⟨rfl, rfl⟩
  | @cons a b l₁ l₂ hab htail ih =>
    rcases ih with ⟨h1, h2⟩ | ⟨a', b', hr, h1, h2⟩
    · by_cases hp : p a = true
      · have hq : q b = true := by rw [← hpq a b hab]; exact hp
        exact Or.inr ⟨a, b, hab, by rw [lastMatch_cons, h1, if_pos hp],
          by rw [lastMatch_cons, h2, if_pos hq]⟩
      · have hq : ¬(q b = true) := by rw [← hpq a b hab]; exact hp
        exact Or.inl ⟨by rw [lastMatch_cons, h1, if_neg hp],
          by rw [lastMatch_cons, h2, if_neg hq]⟩
    · exact Or.inr ⟨a', b', hr, by rw [lastMatch_cons, h1],
        by rw [lastMatch_cons, h2]⟩

theorem recordToRow_fields (session_id : String) (rec : SubmissionRecord)
    (row : AttendanceRow) (h : recordToRow session_id rec = .ok row) :
    row.user_id = rec.user_id ∧ row.session_id = session_id := by
  unfold recordToRow at h
  rcases rec with ⟨uid, uname, ts⟩
  rcases ts with ⟨y, mo, d, hh, mi, s⟩ | ⟨ts⟩
  · injection h with h
    rw [← h]
    exact ⟨rfl, rfl⟩
  · simp only at h
    rcases hft : firstToken ts.data with - | tok <;> rw [hft] at h
    · exact absurd h (by simp)
    · injection h with h
      rw [← h]
      exact ⟨rfl, rfl⟩

/-- Claim C1: when `save_attendance_records` succeeds on a table satisfying
the `UNIQUE(user_id, session_id)` invariant, the resulting table still holds
at most one row per `(user_id, session_id)` pair; for every user occurring
in the input list, the stored row for that user and session is the prepared
row of the last occurrence in the list (last-write-wins); for every user
not occurring, the rows for that user and session are unchanged. -/
theorem save_attendance_records_lww (tbl tbl' : List AttendanceRow)
    (records : List SubmissionRecord) (session_id : String) (n : Nat)
    (huniq : UniqueKeys tbl)
    (hsave : save_attendance_records tbl records session_id = .ok (tbl', n)) :
    UniqueKeys tbl' ∧
    (∀ u : Int,
      (∀ rec, lastMatch (fun rec => decide (rec.user_id = u)) records = some rec →
        ∃ row, recordToRow session_id rec = .ok row ∧ keyRows tbl' u session_id = [row]) ∧
      (lastMatch (fun rec => decide (rec.user_id = u)) records = none →
        keyRows tbl' u session_id = keyRows tbl u session_id)) := by
  rcases records with - | ⟨r0, rs⟩
  · unfold save_attendance_records at hsave
    injection hsave with hsave
    rw [Prod.mk.injEq] at hsave
    obtain ⟨h1, -⟩ := hsave
    subst h1
    refine ⟨huniq, fun u => ⟨?_, fun _ => rfl⟩⟩
    intro rec hl
    exact absurd hl (by simp [lastMatch])
  · unfold save_attendance_records at hsave
    rcases hprep : prepareRows session_id (r0 :: rs) with e | rows <;> rw [hprep] at hsave
    · exact absurd hsave (by simp)
    · injection hsave with hsave
      rw [Prod.mk.injEq] at hsave
      obtain ⟨h1, -⟩ := hsave
      subst h1
      have hf2 := prepareRows_forall₂ session_id (r0 :: rs) rows hprep
      refine ⟨UniqueKeys_foldl tbl rows huniq, ?_⟩
      intro u
      have hpq : ∀ (rec : SubmissionRecord) (row : AttendanceRow),
          recordToRow session_id rec = .ok row →
          decide (rec.user_id = u) = keyMatch u session_id row := by
        intro rec row hr
        obtain ⟨e1, e2⟩ := recordToRow_fields session_id rec row hr
        show decide (rec.user_id = u) = decide (row.user_id = u ∧ row.session_id = session_id)
        by_cases hu : rec.user_id = u
        · rw [decide_eq_true hu, decide_eq_true ⟨e1.trans hu, e2⟩]
        · have hnc : ¬(row.user_id = u ∧ row.session_id = session_id) := by
            intro hc
            exact hu (e1.symm.trans hc.1)
          rw [decide_eq_false hu, decide_eq_false hnc]
      rcases lastMatch_forall₂ hpq hf2 with ⟨hn1, hn2⟩ | ⟨rec, row, hr, hs1, hs2⟩
      · constructor
        · intro rec hl
          rw [hl] at hn1
          exact absurd hn1 (by simp)
        · intro _
          exact keyRows_foldl_none u session_id rows tbl hn2
      · constructor
        · intro rec' hl
          rw [hs1] at hl
          injection hl with hl
          subst hl
          exact ⟨row, hr, keyRows_foldl_some u session_id rows tbl row hs2⟩
        · intro hl
          rw [hs1] at hl
          exact absurd hl (by simp)

theorem save_attendance_records_lww_witness :
    UniqueKeys [AttendanceRow.mk 1 "bob" "2024-01-02 10:00:05" "2024-01-02" "s1" (some "present")] ∧
    ∃ row, recordToRow "s1" (SubmissionRecord.mk 1 "bob" (PyTimestamp.str "2024-01-02 10:00:05")) =
        .ok row ∧
      keyRows [AttendanceRow.mk 1 "bob" "2024-01-02 10:00:05" "2024-01-02" "s1" (some "present")]
        1 "s1" = [row] := by
  have h := save_attendance_records_lww []
    [AttendanceRow.mk 1 "bob" "2024-01-02 10:00:05" "2024-01-02" "s1" (some "present")]
    [SubmissionRecord.mk 1 "alice" (PyTimestamp.str "2024-01-02 10:00:00"),
      SubmissionRecord.mk 1 "bob" (PyTimestamp.str "2024-01-02 10:00:05")]
    "s1" 2 (fun u sid => by simp [keyRows]) rfl
  exact ⟨h.1, (h.2 1).1 (SubmissionRecord.mk 1 "bob" (PyTimestamp.str "2024-01-02 10:00:05"))
    (by decide)⟩

theorem prepareRows_ok_length (session_id : String) :
    ∀ (records : List SubmissionRecord),
      (∀ rec ∈ records, ∃ row, recordToRow session_id rec = .ok row) →
      ∃ rows, prepareRows session_id records = .ok rows ∧ rows.length = records.length := by
  intro records
  induction records with
  | nil => intro _; exact ⟨[], rfl, rfl⟩
  | cons r rs ih =>
    intro h
    obtain ⟨row, hrow⟩ := h r (List.mem_cons_self r rs)
    obtain ⟨rows, hrows, hlen⟩ := ih (fun rec hrec => h rec (List.mem_cons_of_mem r hrec))
    refine ⟨row :: rows, ?_, by simp [hlen]⟩
    unfold prepareRows
    rw [hrow, hrows]

/-- Claim C7: `save_attendance_records` returns 0 on the empty record list
leaving the table untouched, and on any record list whose timestamps are
well formed it succeeds returning exactly the length of the input list
(duplicate user ids included, since the count is the length of
`data_to_insert`, not the number of rows stored). -/
theorem save_attendance_records_count (tbl : List AttendanceRow)
    (records : List SubmissionRecord) (session_id : String)
    (hwf : ∀ rec ∈ records, ∃ row, recordToRow session_id rec = .ok row) :
    save_attendance_records tbl [] session_id = .ok (tbl, 0) ∧
    ∃ tbl', save_attendance_records tbl records session_id = .ok (tbl', records.length) := by
  refine ⟨rfl, ?_⟩
  rcases records with - | ⟨r0, rs⟩
  · exact ⟨tbl, rfl⟩
  · obtain ⟨rows, hrows, hlen⟩ := prepareRows_ok_length session_id (r0 :: rs) hwf
    refine ⟨rows.foldl upsertRow tbl, ?_⟩
    unfold save_attendance_records
    rw [hrows]
    show Except.ok (rows.foldl upsertRow tbl, rows.length) =
      Except.ok (rows.foldl upsertRow tbl, (r0 :: rs).length)
    rw [hlen]

theorem save_attendance_records_count_witness :
    save_attendance_records [] [] "s1" = .ok ([], 0) ∧
    ∃ tbl', save_attendance_records []
        [SubmissionRecord.mk 1 "alice" (PyTimestamp.str "2024-01-02 10:00:00")] "s1" =
      .ok (tbl',
        [SubmissionRecord.mk 1 "alice" (PyTimestamp.str "2024-01-02 10:00:00")].length) :=
  save_attendance_records_count []
    [SubmissionRecord.mk 1 "alice" (PyTimestamp.str "2024-01-02 10:00:00")] "s1"
    (by
      intro rec hrec
      rw [List.mem_singleton] at hrec
      subst hrec
      exact ⟨_, rfl⟩)

/-- Python truthiness of an optional string: `None` and the empty string are
falsy. -/
def pyTruthyStr (o : Option String) : Bool :=
  match o with
  | none => false
  | some s => !(s == "")

/-- `AttendanceDatabase.remove_attendance`: `DELETE` filtered by session or
by date; with neither filter it returns 0 without touching the table
(the explicit safety branch).  The returned count is SQLite `rowcount`,
the number of deleted rows. -/
def remove_attendance (tbl : List AttendanceRow) (user_id : Int)
    (date_id session_id : Option String) : List AttendanceRow × Nat :=
  if pyTruthyStr session_id then
    (tbl.filter (fun r => !(decide (r.user_id = user_id ∧ r.session_id = session_id.getD ""))),
      (tbl.filter (fun r => decide (r.user_id = user_id ∧ r.session_id = session_id.getD ""))).length)
  else if pyTruthyStr date_id then
    (tbl.filter (fun r => !(decide (r.user_id = user_id ∧ r.date_id = date_id.getD ""))),
      (tbl.filter (fun r => decide (r.user_id = user_id ∧ r.date_id = date_id.getD ""))).length)
  else (tbl, 0)

/-- `AttendanceDatabase.update_attendance_status`: `UPDATE ... SET status`
filtered by session or by date; with neither filter it returns 0 without
touching the table.  The returned count is SQLite `rowcount`, the number of
updated rows. -/
def update_attendance_status (tbl : List AttendanceRow) (user_id : Int) (status : String)
    (date_id session_id : Option String) : List AttendanceRow × Nat :=
  if pyTruthyStr session_id then
    (tbl.map (fun r =>
        if r.user_id = user_id ∧ r.session_id = session_id.getD "" then
          { r with status := some status } else r),
      (tbl.filter (fun r => decide (r.user_id = user_id ∧ r.session_id = session_id.getD ""))).length)
  else if pyTruthyStr date_id then
    (tbl.map (fun r =>
        if r.user_id = user_id ∧ r.date_id = date_id.getD "" then
          { r with status := some status } else r),
      (tbl.filter (fun r => decide (r.user_id = user_id ∧ r.date_id = date_id.getD ""))).length)
  else (tbl, 0)

/-- Claim C10: calling `remove_attendance` or `update_attendance_status`
with neither a date filter nor a session filter returns 0 and leaves every
row of the attendance table unchanged, for every user id and every table. -/
theorem unfiltered_remove_update_noop (tbl : List AttendanceRow)
    (user_id : Int) (status : String) :
    remove_attendance tbl user_id none none = (tbl, 0) ∧
    update_attendance_status tbl user_id status none none = (tbl, 0) :=
  ⟨rfl, rfl⟩

/-- One row of the `students` registration table (`user_id` is the primary
key, so at most one row per user). -/
structure Student where
  user_id : Int
  student_id : String
  student_name : Option String
  registered_at : String
deriving DecidableEq, Repr

/-- One data row of the exported CSV (the SELECT column list of
`export_to_csv`). -/
structure CsvRow where
  student_id : Option String
  student_name : Option String
  discord_username : String
  user_id : Int
  timestamp : String
  date_id : String
  session_id : String
  status : String
deriving DecidableEq, Repr

/-- The `LEFT JOIN students s ON a.user_id = s.user_id` of one attendance
row (at most one student row matches, `user_id` being the primary key),
with `COALESCE(a.status, 'present')`. -/
def joinStudent (students : List Student) (a : AttendanceRow) : CsvRow :=
  match students.find? (fun s => decide (s.user_id = a.user_id)) with
  | some s => ⟨some s.student_id, s.student_name, a.username, a.user_id, a.timestamp,
      a.date_id, a.session_id, a.status.getD "present"⟩
  | none => ⟨none, none, a.username, a.user_id, a.timestamp,
      a.date_id, a.session_id, a.status.getD "present"⟩

/-- `ORDER BY a.timestamp ASC` (SQLite compares TEXT lexicographically). -/
def byTimestampAsc (a b : AttendanceRow) : Prop := a.timestamp ≤ b.timestamp

instance : DecidableRel byTimestampAsc :=
  fun a b => inferInstanceAs (Decidable (a.timestamp ≤ b.timestamp))

instance : IsTotal AttendanceRow byTimestampAsc :=
  ⟨fun a b => le_total a.timestamp b.timestamp⟩

instance : IsTrans AttendanceRow byTimestampAsc :=
  ⟨fun _ _ _ hab hbc => le_trans hab hbc⟩

/-- `ORDER BY a.date_id DESC, a.timestamp DESC`. -/
def byDateDescTsDesc (a b : AttendanceRow) : Prop :=
  b.date_id < a.date_id ∨ (b.date_id = a.date_id ∧ b.timestamp ≤ a.timestamp)

instance : DecidableRel byDateDescTsDesc :=
  fun a b => inferInstanceAs (Decidable (_ ∨ _))

/-- `AttendanceDatabase.export_to_csv`: the filtered branch is taken when
`session_id` is truthy (a non-empty string); the query is sorted, joined
against the students table, one CSV data row is written per result row,
and the number of result rows is returned. -/
def export_to_csv (tbl : List AttendanceRow) (students : List Student)
    (session_id : Option String) : List CsvRow × Nat :=
  if pyTruthyStr session_id then
    ((List.insertionSort byTimestampAsc
        (tbl.filter (fun a => decide (a.session_id = session_id.getD "")))).map
          (joinStudent students),
      (List.insertionSort byTimestampAsc
        (tbl.filter (fun a => decide (a.session_id = session_id.getD "")))).length)
  else
    ((List.insertionSort byDateDescTsDesc tbl).map (joinStudent students),
      (List.insertionSort byDateDescTsDesc tbl).length)

/-- The CSV output order on the timestamp column. -/
def csvTsLe (x y : CsvRow) : Prop := x.timestamp ≤ y.timestamp

theorem joinStudent_timestamp (students : List Student) (a : AttendanceRow) :
    (joinStudent students a).timestamp = a.timestamp := by
  unfold joinStudent
  rcases hf : students.find? (fun s => decide (s.user_id = a.user_id)) with - | s <;>
    rw [hf]

/-- Claim C8 counterexample: supplying the session identifier `""` takes the
unfiltered branch (Python truthiness), so every record is exported and the
returned count differs from the number of rows matching the supplied
session filter. -/
theorem export_to_csv_empty_sid_counterexample :
    (export_to_csv [AttendanceRow.mk 1 "alice" "t1" "d1" "s1" (some "present")] []
        (some "")).2 = 1 ∧
    ([AttendanceRow.mk 1 "alice" "t1" "d1" "s1" (some "present")].filter
        (fun a => decide (a.session_id = ""))).length = 0 :=
  ⟨rfl, rfl⟩

/-- Claim C8 (amended): for a non-empty supplied session identifier,
`export_to_csv` returns exactly the number of rows of that session, writes
one CSV data row per such record, ordered by timestamp ascending; with no
session identifier (or an empty one) every record is exported and the
count again equals the number of data rows written. -/
theorem export_to_csv_count_order (tbl : List AttendanceRow) (students : List Student) :
    (∀ sid : String, sid ≠ "" →
      (export_to_csv tbl students (some sid)).2 =
          (tbl.filter (fun a => decide (a.session_id = sid))).length ∧
        (export_to_csv tbl students (some sid)).1.length =
          (export_to_csv tbl students (some sid)).2 ∧
        List.Sorted csvTsLe (export_to_csv tbl students (some sid)).1 ∧
        (export_to_csv tbl students (some sid)).1.Perm
          ((tbl.filter (fun a => decide (a.session_id = sid))).map (joinStudent students))) ∧
    ((export_to_csv tbl students none).2 = tbl.length ∧
      (export_to_csv tbl students none).1.length = (export_to_csv tbl students none).2 ∧
      (export_to_csv tbl students none).1.Perm (tbl.map (joinStudent students))) := by
  constructor
  · intro sid hsid
    have htruthy : pyTruthyStr (some sid) = true := by
      simp [pyTruthyStr, hsid]
    have hexp : export_to_csv tbl students (some sid) =
        ((List.insertionSort byTimestampAsc
            (tbl.filter (fun a => decide (a.session_id = sid)))).map (joinStudent students),
          (List.insertionSort byTimestampAsc
            (tbl.filter (fun a => decide (a.session_id = sid)))).length) := by
      unfold export_to_csv
      rw [htruthy]
      simp [Option.getD]
    rw [hexp]
    refine ⟨?_, ?_, ?_, ?_⟩
    · exact (List.perm_insertionSort _ _).length_eq
    · simp
    · have hsorted := List.sorted_insertionSort byTimestampAsc
        (tbl.filter (fun a => decide (a.session_id = sid)))
      exact List.Pairwise.map _ (fun a b hab => by
        show csvTsLe (joinStudent students a) (joinStudent students b)
        unfold csvTsLe
        rw [joinStudent_timestamp, joinStudent_timestamp]
        exact hab) hsorted
    · exact (List.perm_insertionSort _ _).map _
  · have hexp : export_to_csv tbl students none =
        ((List.insertionSort byDateDescTsDesc tbl).map (joinStudent students),
          (List.insertionSort byDateDescTsDesc tbl).length) := by
      unfold export_to_csv
      rfl
    rw [hexp]
    refine ⟨(List.perm_insertionSort _ _).length_eq, by simp,
      (List.perm_insertionSort _ _).map _⟩

theorem export_to_csv_count_order_witness :
    (export_to_csv [AttendanceRow.mk 1 "alice" "t1" "d1" "s1" (some "present")] []
        (some "s1")).2 =
        ([AttendanceRow.mk 1 "alice" "t1" "d1" "s1" (some "present")].filter
          (fun a => decide (a.session_id = "s1"))).length ∧
      (export_to_csv [AttendanceRow.mk 1 "alice" "t1" "d1" "s1" (some "present")] []
          (some "s1")).1.length =
        (export_to_csv [AttendanceRow.mk 1 "alice" "t1" "d1" "s1" (some "present")] []
          (some "s1")).2 ∧
      List.Sorted csvTsLe
        (export_to_csv [AttendanceRow.mk 1 "alice" "t1" "d1" "s1" (some "present")] []
          (some "s1")).1 ∧
      (export_to_csv [AttendanceRow.mk 1 "alice" "t1" "d1" "s1" (some "present")] []
          (some "s1")).1.Perm
        (([AttendanceRow.mk 1 "alice" "t1" "d1" "s1" (some "present")].filter
          (fun a => decide (a.session_id = "s1"))).map (joinStudent [])) :=
  (export_to_csv_count_order
    [AttendanceRow.mk 1 "alice" "t1" "d1" "s1" (some "present")] []).1 "s1" (by decide)

/-- Python truthiness of an integer read from the environment: only 0 is
falsy (a negative id passes the missing-check but fails the positivity
check). -/
def pyTruthyInt (n : Int) : Bool := !(n == 0)

/-- The configuration values of `config.py` (`DISCORD_BOT_TOKEN` is `None`
when the environment variable is unset; the channel ids default to 0). -/
structure Config where
  DISCORD_BOT_TOKEN : Option String
  ADMIN_CHANNEL_ID : Int
  ATTENDANCE_CHANNEL_ID : Int
  DATABASE_PATH : String
  CODE_ROTATION_INTERVAL : Int
  CODE_LENGTH : Int
deriving DecidableEq, Repr

/-- `Config.validate`: collect falsy required values into `missing` (in
dict insertion order), raise if any; then the positivity checks on the two
channel ids, the rotation-interval floor and the code-length floor; return
`True` when all pass. -/
def Config.validate (c : Config) : Except String Bool :=
  if ((if pyTruthyStr c.DISCORD_BOT_TOKEN then ([] : List String) else ["DISCORD_BOT_TOKEN"]) ++
      (if pyTruthyInt c.ADMIN_CHANNEL_ID then [] else ["ADMIN_CHANNEL_ID"]) ++
      (if pyTruthyInt c.ATTENDANCE_CHANNEL_ID then [] else ["ATTENDANCE_CHANNEL_ID"])) ≠ [] then
    .error "Missing required configuration"
  else if c.ADMIN_CHANNEL_ID ≤ 0 then
    .error "ADMIN_CHANNEL_ID must be a valid positive integer"
  else if c.ATTENDANCE_CHANNEL_ID ≤ 0 then
    .error "ATTENDANCE_CHANNEL_ID must be a valid positive integer"
  else if c.CODE_ROTATION_INTERVAL < 5 then
    .error "CODE_ROTATION_INTERVAL must be at least 5 seconds"
  else if c.CODE_LENGTH < 3 then
    .error "CODE_LENGTH must be at least 3 characters"
  else .ok true

theorem pyTruthyStr_iff (o : Option String) :
    pyTruthyStr o = true ↔ ∃ s, o = some s ∧ s ≠ "" := by
  cases o with
  | none => simp [pyTruthyStr]
  | some s => simp [pyTruthyStr]

/-- Claim C9: `Config.validate` returns `True` exactly when the bot token is
set (to a non-empty string), both channel ids are positive, the rotation
interval is at least 5 and the code length is at least 3; in every other
case it raises `ValueError`. -/
theorem config_validate_iff (c : Config) :
    (Config.validate c = .ok true ↔
      ((∃ s, c.DISCORD_BOT_TOKEN = some s ∧ s ≠ "") ∧ 0 < c.ADMIN_CHANNEL_ID ∧
        0 < c.ATTENDANCE_CHANNEL_ID ∧ 5 ≤ c.CODE_ROTATION_INTERVAL ∧ 3 ≤ c.CODE_LENGTH)) ∧
    (¬((∃ s, c.DISCORD_BOT_TOKEN = some s ∧ s ≠ "") ∧ 0 < c.ADMIN_CHANNEL_ID ∧
        0 < c.ATTENDANCE_CHANNEL_ID ∧ 5 ≤ c.CODE_ROTATION_INTERVAL ∧ 3 ≤ c.CODE_LENGTH) →
      ∃ msg, Config.validate c = .error msg) := by
  have hextract : ¬((if pyTruthyStr c.DISCORD_BOT_TOKEN then ([] : List String)
        else ["DISCORD_BOT_TOKEN"]) ++
      (if pyTruthyInt c.ADMIN_CHANNEL_ID then [] else ["ADMIN_CHANNEL_ID"]) ++
      (if pyTruthyInt c.ATTENDANCE_CHANNEL_ID then [] else ["ATTENDANCE_CHANNEL_ID"]) ≠ []) →
      ∃ s, c.DISCORD_BOT_TOKEN = some s ∧ s ≠ "" := by
    intro h1
    have h1' := not_not.mp h1
    rw [← pyTruthyStr_iff]
    by_cases ht : pyTruthyStr c.DISCORD_BOT_TOKEN = true
    · exact ht
    · rw [if_neg ht] at h1'
      exact absurd h1' (by simp)
  constructor
  · constructor
    · intro h
      unfold Config.validate at h
      by_cases h1 : ((if pyTruthyStr c.DISCORD_BOT_TOKEN then ([] : List String)
            else ["DISCORD_BOT_TOKEN"]) ++
          (if pyTruthyInt c.ADMIN_CHANNEL_ID then [] else ["ADMIN_CHANNEL_ID"]) ++
          (if pyTruthyInt c.ATTENDANCE_CHANNEL_ID then [] else ["ATTENDANCE_CHANNEL_ID"]) ≠ [])
      · rw [if_pos h1] at h
        exact absurd h (by simp)
      · rw [if_neg h1] at h
        by_cases h2 : c.ADMIN_CHANNEL_ID ≤ 0
        · rw [if_pos h2] at h
          exact absurd h (by simp)
        · rw [if_neg h2] at h
          by_cases h3 : c.ATTENDANCE_CHANNEL_ID ≤ 0
          · rw [if_pos h3] at h
            exact absurd h (by simp)
          · rw [if_neg h3] at h
            by_cases h4 : c.CODE_ROTATION_INTERVAL < 5
            · rw [if_pos h4] at h
              exact absurd h (by simp)
            · rw [if_neg h4] at h
              by_cases h5 : c.CODE_LENGTH < 3
              · rw [if_pos h5] at h
                exact absurd h (by simp)
              · exact ⟨hextract h1, by omega, by omega, by omega, by omega⟩
    · rintro ⟨⟨s, hs, hsne⟩, h2, h3, h4, h5⟩
      have ht : pyTruthyStr c.DISCORD_BOT_TOKEN = true :=
        (pyTruthyStr_iff _).mpr ⟨s, hs, hsne⟩
      have ha : pyTruthyInt c.ADMIN_CHANNEL_ID = true := by
        unfold pyTruthyInt
        simp only [Bool.not_eq_true', beq_eq_false_iff_ne]
        omega
      have hb : pyTruthyInt c.ATTENDANCE_CHANNEL_ID = true := by
        unfold pyTruthyInt
        simp only [Bool.not_eq_true', beq_eq_false_iff_ne]
        omega
      unfold Config.validate
      rw [if_pos ht, if_pos ha, if_pos hb]
      rw [if_neg (by simp)]
      rw [if_neg (by omega), if_neg (by omega), if_neg (by omega), if_neg (by omega)]
  · intro hnp
    unfold Config.validate
    by_cases h1 : ((if pyTruthyStr c.DISCORD_BOT_TOKEN then ([] : List String)
          else ["DISCORD_BOT_TOKEN"]) ++
        (if pyTruthyInt c.ADMIN_CHANNEL_ID then [] else ["ADMIN_CHANNEL_ID"]) ++
        (if pyTruthyInt c.ATTENDANCE_CHANNEL_ID then [] else ["ATTENDANCE_CHANNEL_ID"]) ≠ [])
    · rw [if_pos h1]
      exact ⟨_, rfl⟩
    · rw [if_neg h1]
      by_cases h2 : c.ADMIN_CHANNEL_ID ≤ 0
      · rw [if_pos h2]
        exact ⟨_, rfl⟩
      · rw [if_neg h2]
        by_cases h3 : c.ATTENDANCE_CHANNEL_ID ≤ 0
        · rw [if_pos h3]
          exact ⟨_, rfl⟩
        · rw [if_neg h3]
          by_cases h4 : c.CODE_ROTATION_INTERVAL < 5
          · rw [if_pos h4]
            exact ⟨_, rfl⟩
          · rw [if_neg h4]
            by_cases h5 : c.CODE_LENGTH < 3
            · rw [if_pos h5]
              exact ⟨_, rfl⟩
            · exact absurd ⟨hextract h1, by omega, by omega, by omega, by omega⟩ hnp

theorem config_validate_iff_witness :
    Config.validate (Config.mk (some "token") 1 2 "data/attendance.db" 15 4) = .ok true :=
  (config_validate_iff (Config.mk (some "token") 1 2 "data/attendance.db" 15 4)).1.mpr
    ⟨⟨"token", rfl, by decide⟩, by decide, by decide, by decide, by decide⟩
